import Mathlib

/-!
Verification of the payment-status reconciliation logic of the
mollie-payments-medusa repository, shallowly embedded from
`src/providers/mollie/service.ts` (class MolliePaymentProviderService)
and `src/providers/mollie/index.ts` (class SumUpBase and SumUpClient).

Gateway network calls are modelled by explicit parameters: a fetch is an
`Except String` result supplied by the environment, and mutating calls
issued by an operation are reported in its output (as a list of
`GatewayCall` values or a call counter), so that frame conditions
("issues no cancel call") are provable.
-/

set_option linter.unusedVariables false

/-- Medusa's `PaymentSessionStatus` enum (the host-side status vocabulary). -/
inductive PaymentSessionStatus where
  | pending
  | requiresMore
  | authorized
  | captured
  | canceled
  | error
deriving DecidableEq, Repr

/-- Mollie's `CaptureMethod` enum from the Mollie SDK. -/
inductive CaptureMethod where
  | automatic
  | manual
deriving DecidableEq, Repr

/-- Medusa's `PaymentActions` vocabulary together with the string literals
the Mollie adapter returns directly ("authorized", "captured", ...). -/
inductive PaymentAction where
  | authorized
  | captured
  | failed
  | canceled
  | pending
  | requiresMore
  | notSupported
  | successful
deriving DecidableEq, Repr

/-- A mutating or reading call issued to a gateway, used to state frame
conditions about which remote calls an operation performs. -/
inductive GatewayCall where
  | fetchPayment (id : String)
  | createCapture (id : String)
  | cancelCall (id : String)
  | deactivate (id : String)
deriving DecidableEq, Repr

/-- JavaScript truthiness of an optional boolean: `undefined` and `false`
are falsy (`options.autoCapture ? ... : ...`, `!this.options.autoCapture`). -/
def jsTruthyBool : Option Bool → Bool
  | some true => true
  | _ => false

/-- JavaScript truthiness of an optional string: `undefined` and `""` are
falsy (`if (!externalId)`, `if (!checkoutId)`). -/
def jsTruthyStr : Option String → Bool
  | none => false
  | some s => decide (s ≠ "")

/-- JavaScript `v || dflt` on an optional string: `undefined` and the empty
string fall through to the default. -/
def jsOrStr (v : Option String) (dflt : String) : String :=
  match v with
  | none => dflt
  | some s => if s = "" then dflt else s

/-- The Mollie payment record, restricted to the fields the adapter reads:
`id`, `status`, `amount` (value/currency strings as Mollie returns them)
and `metadata.idempotency_key`. -/
structure MolliePayment where
  id : String
  status : String
  amountValue : String
  amountCurrency : String
  metadataIdempotencyKey : Option String
deriving DecidableEq, Repr

/-- The `statusMap` object literal inside
`MolliePaymentProviderService.getPaymentStatus` (service.ts lines 421-429).
A JavaScript object lookup `statusMap[status]` yields `undefined` for a key
outside the literal, hence the `Option` codomain with no fallback branch. -/
def mollieStatusMap (status : String) : Option PaymentSessionStatus :=
  if status = "open" then some .requiresMore
  else if status = "canceled" then some .canceled
  else if status = "pending" then some .pending
  else if status = "authorized" then some .authorized
  else if status = "expired" then some .error
  else if status = "failed" then some .error
  else if status = "paid" then some .captured
  else none

/-- The keys of the Mollie `statusMap` literal (the mapper's known domain). -/
def mollieKnownStatuses : List String :=
  ["open", "canceled", "pending", "authorized", "expired", "failed", "paid"]

/-- The string a mapped status interpolates to in a template literal or
compares to under `===`: Medusa's enum values are these lowercase strings,
and `undefined` prints as "undefined". -/
def psStatusStr : Option PaymentSessionStatus → String
  | some .pending => "pending"
  | some .requiresMore => "requires_more"
  | some .authorized => "authorized"
  | some .captured => "captured"
  | some .canceled => "canceled"
  | some .error => "error"
  | none => "undefined"

/-- `MolliePaymentProviderService.getPaymentStatus` (service.ts 413-447):
fetches the payment (`this.client.payments.get`), applies `statusMap`, and
returns `{ status: mappedStatus }`; the catch block logs and rethrows, so a
failed fetch propagates as an error. -/
def mollieGetPaymentStatus (fetch : Except String MolliePayment) :
    Except String (Option PaymentSessionStatus) :=
  match fetch with
  | .ok p => .ok (mollieStatusMap p.status)
  | .error e => .error e

/-- `MolliePaymentProviderService.authorizePayment` output shape
`{ data, status }`. The returned data is the input's `data` passed through. -/
structure MollieAuthOut where
  dataId : Option String
  status : Option PaymentSessionStatus
deriving DecidableEq, Repr

/-- `MolliePaymentProviderService.authorizePayment` (service.ts 186-227):
requires a truthy `input.data?.id`, reads the mapped status via
`getPaymentStatus`, and succeeds only when
`["captured", "authorized", "paid"].includes(status)`; otherwise it throws
"Payment is not authorized: current status is " followed by the status. -/
def mollieAuthorizePayment (fetch : Except String MolliePayment)
    (inputId : Option String) : Except String MollieAuthOut :=
  if jsTruthyStr inputId then
    match mollieGetPaymentStatus fetch with
    | .error e => .error e
    | .ok s =>
      if (["captured", "authorized", "paid"]).contains (psStatusStr s) then
        .ok { dataId := inputId, status := s }
      else
        .error ("Payment is not authorized: current status is " ++ psStatusStr s)
  else
    .error "Payment ID is required"

/-- Provider options of the Mollie adapter (service.ts `Options` type):
`apiKey`, `redirectUrl`, `medusaUrl` required; `autoCapture`, `description`,
`debug` optional. The doc comment in the source states that `autoCapture`
"defaults to true". -/
structure MollieOptions where
  apiKey : String
  redirectUrl : String
  medusaUrl : String
  autoCapture : Option Bool
  description : Option String
  debug : Option Bool
deriving DecidableEq, Repr

/-- Billing context fields read by `initiatePayment` from
`input.context?.customer`. -/
structure MollieInitContext where
  idempotencyKey : Option String
  email : Option String
  address1 : Option String
  postalCode : Option String
  city : Option String
  countryCode : Option String
deriving DecidableEq, Repr

/-- The `PaymentCreateParams` record `initiatePayment` sends to
`this.client.payments.create` (service.ts 132-154).  The monetary value is
taken as the already-`toFixed(2)`-formatted string. -/
structure MollieCreateParams where
  billingStreet : String
  billingPostal : String
  billingCity : String
  billingCountry : String
  billingEmail : String
  amountValue : String
  amountCurrency : String
  description : String
  captureMode : CaptureMethod
  redirectUrl : String
  webhookUrl : String
  metadataIdempotencyKey : Option String
deriving DecidableEq, Repr

/-- Construction of the create-payment request in
`MolliePaymentProviderService.initiatePayment` (service.ts 126-154):
billing fields fall back to `""` via `||`, the capture mode is
`this.options.autoCapture ? CaptureMethod.automatic : CaptureMethod.manual`,
and `metadata.idempotency_key` is `context?.idempotency_key`. -/
def mollieInitiateCreateParams (opts : MollieOptions) (ctx : MollieInitContext)
    (amountFixed2 : String) (currencyCode : String) (webhookUrl : String) :
    MollieCreateParams :=
  { billingStreet := jsOrStr ctx.address1 ""
    billingPostal := jsOrStr ctx.postalCode ""
    billingCity := jsOrStr ctx.city ""
    billingCountry := jsOrStr ctx.countryCode ""
    billingEmail := jsOrStr ctx.email ""
    amountValue := amountFixed2
    amountCurrency := currencyCode.toUpper
    description := jsOrStr opts.description "Mollie payment created by Medusa"
    captureMode := if jsTruthyBool opts.autoCapture then .automatic else .manual
    redirectUrl := opts.redirectUrl
    webhookUrl := webhookUrl
    metadataIdempotencyKey := ctx.idempotencyKey }

/-- The tail of `MolliePaymentProviderService.capturePayment` after the
optional capture call: the `status !== "captured"` check against the
freshly read status of the (possibly updated) gateway record `p2`, then the
final `retrievePayment` whose data is returned, with the number `n` of
capture requests issued so far passed through. -/
def mollieCaptureFinish (p2 : MolliePayment) (n : Nat) :
    Except String MolliePayment × MolliePayment × Nat :=
  if psStatusStr (mollieStatusMap p2.status) ≠ "captured" then
    (.error ("Payment is not captured: current status is " ++
             psStatusStr (mollieStatusMap p2.status)), p2, n)
  else
    (.ok p2, p2, n)

/-- `MolliePaymentProviderService.capturePayment` (service.ts 234-294),
modelled over the gateway state of the single payment addressed by
`inputId`.  The gateway is taken as responsive: `payments.get` returns the
current record `p`.  When the mapped status is `"authorized"` and
`!this.options.autoCapture`, one capture call (`paymentCaptures.create`)
is issued, transitioning the gateway record by `capEffect`, and the status
is re-read.  Returns the operation result (the final `retrievePayment`
data on success), the gateway record after the call, and the number of
capture requests issued. -/
def mollieCapturePayment (autoCapture : Option Bool)
    (capEffect : MolliePayment → MolliePayment)
    (inputId : Option String) (p : MolliePayment) :
    Except String MolliePayment × MolliePayment × Nat :=
  if jsTruthyStr inputId then
    if psStatusStr (mollieStatusMap p.status) = "authorized" ∧
        jsTruthyBool autoCapture = false then
      mollieCaptureFinish (capEffect p) 1
    else
      mollieCaptureFinish p 0
  else
    (.error "Payment ID is required", p, 0)

/-- The three distinct data shapes `cancelPayment` can return:
`{ id }` for an already-expired payment, the cancelled payment record on a
successful cancel call, and — through the `.catch` that returns
`{ data: payment }` which is then wrapped again — the prior snapshot nested
inside an extra `data` field when the cancel call fails. -/
inductive MollieCancelData where
  | idOnly (id : Option String)
  | payment (p : MolliePayment)
  | wrappedPrior (p : MolliePayment)
deriving DecidableEq, Repr

/-- `MolliePaymentProviderService.cancelPayment` (service.ts 360-397):
fetches the payment; if its status is `"expired"` it returns `{ id }`
without calling `payments.cancel`; otherwise it issues one cancel call,
swallowing a cancel failure by returning the pre-cancel snapshot (wrapped).
A failed fetch propagates via the outer catch's rethrow.  The second
component counts cancel calls issued. -/
def mollieCancelPayment (inputId : Option String)
    (fetchResult : Except String MolliePayment)
    (cancelResult : Except String MolliePayment) :
    Except String MollieCancelData × Nat :=
  match fetchResult with
  | .error e => (.error e, 0)
  | .ok p =>
    if p.status = "expired" then
      (.ok (.idOnly inputId), 0)
    else
      match cancelResult with
      | .ok np => (.ok (.payment np), 1)
      | .error _ => (.ok (.wrappedPrior p), 1)

/-- The webhook payload the Mollie adapter receives: it destructures only
`payload.data` and reads `data.id`; any status or amount the body may carry
is never read, which the extra fields below make checkable. -/
structure MollieWebhookPayload where
  id : String
  bodyStatus : Option String
  bodyAmount : Option String
deriving DecidableEq, Repr

/-- The `baseData` record built by `getWebhookActionAndData`
(service.ts 527-531): amount and session id come from the freshly fetched
payment (`payment.amount`, `payment.metadata.idempotency_key`), with the
payment record spread in. -/
structure MollieWebhookData where
  amountValue : String
  sessionId : Option String
  payment : MolliePayment
deriving DecidableEq, Repr

/-- The `switch (status)` of `getWebhookActionAndData` (service.ts 533-570)
over the fetched payment's gateway status. -/
def mollieActionOf (status : String) : PaymentAction :=
  if status = "authorized" then .authorized
  else if status = "paid" then .captured
  else if status = "expired" then .failed
  else if status = "failed" then .failed
  else if status = "canceled" then .canceled
  else if status = "pending" then .pending
  else if status = "open" then .requiresMore
  else .notSupported

/-- `MolliePaymentProviderService.getWebhookActionAndData`
(service.ts 504-594): re-fetches the payment by `payload.data.id` as its
first step and derives action and data from the fetched record.  When the
fetch fails, the outer catch retries the same fetch; with a deterministic
gateway the retry fails too and the error propagates. -/
def mollieGetWebhookActionAndData (fetch : String → Except String MolliePayment)
    (payload : MollieWebhookPayload) :
    Except String (PaymentAction × MollieWebhookData) :=
  match fetch payload.id with
  | .error e => .error e
  | .ok p =>
    .ok (mollieActionOf p.status,
         { amountValue := p.amountValue
           sessionId := p.metadataIdempotencyKey
           payment := p })

/-- The SumUp checkout record, restricted to the fields the adapter reads:
`id`, `checkout_reference`, `amount`, `currency`, `status`, `transactions`.
Transactions are kept opaque (their ids). -/
structure SumUpCheckout where
  id : String
  checkoutReference : String
  amount : Int
  currency : String
  status : String
  transactions : List String
deriving DecidableEq, Repr

/-- The session `data` record the SumUp adapter threads through its
operations (`input.data` and the spreads `{...input.data, ...}`): every
field is optional, and `extra` stands for any further passthrough fields. -/
structure SumUpData where
  id : Option String
  status : Option String
  transactions : Option (List String)
  amount : Option Int
  currency : Option String
  extra : List (String × String)
deriving DecidableEq, Repr

/-- Provider options of the SumUp adapter (`ProviderOptions`): `apiKey`,
`redirectUrl`, `medusaUrl` required; `merchantCode`, `autoCapture`,
`description`, `debug` optional. -/
structure SumUpOptions where
  apiKey : String
  redirectUrl : String
  medusaUrl : String
  merchantCode : Option String
  autoCapture : Option Bool
  description : Option String
  debug : Option Bool
deriving DecidableEq, Repr

/-- The `statusMap` object literal with its `|| PaymentSessionStatus.PENDING`
fallback inside `SumUpBase.getPaymentStatus` (index.ts 434-440): the lookup
is total, and an unknown checkout status falls back to PENDING. -/
def sumUpStatusMapTotal (s : String) : PaymentSessionStatus :=
  if s = "PENDING" then .pending
  else if s = "FAILED" then .error
  else if s = "PAID" then .authorized
  else .pending

/-- The keys of the SumUp `statusMap` literal. -/
def sumUpKnownStatuses : List String := ["PENDING", "FAILED", "PAID"]

/-- Output shape of `SumUpBase.getPaymentStatus`: the two early returns
carry only `{ status }` (no data), the success path also carries the
spread-updated data. -/
structure SumUpStatusOut where
  status : PaymentSessionStatus
  data : Option SumUpData
deriving DecidableEq, Repr

/-- `SumUpBase.getPaymentStatus` (index.ts 424-454): returns ERROR when the
checkout id is falsy, maps the fetched checkout's status through the total
`statusMap` lookup, and the catch converts any fetch failure into
`{ status: ERROR }` instead of rethrowing. -/
def sumUpGetPaymentStatus (fetch : String → Except String SumUpCheckout)
    (d : SumUpData) : SumUpStatusOut :=
  if jsTruthyStr d.id then
    match fetch (jsOrStr d.id "") with
    | .error _ => { status := .error, data := none }
    | .ok c =>
      { status := sumUpStatusMapTotal c.status
        data := some { d with status := some c.status,
                              transactions := some c.transactions } }
  else
    { status := .error, data := none }

/-- Output shape of `SumUpBase.authorizePayment`: `{ status, data }`. -/
structure SumUpAuthOut where
  status : PaymentSessionStatus
  data : SumUpData
deriving DecidableEq, Repr

/-- `SumUpBase.authorizePayment` (index.ts 243-289): requires a truthy
checkout id, fetches the checkout, and returns AUTHORIZED for a "PAID"
checkout, ERROR status (as a successful return, not an exception) for
"FAILED", and PENDING status otherwise; a fetch failure is rethrown by the
catch. -/
def sumUpAuthorizePayment (fetch : String → Except String SumUpCheckout)
    (d : SumUpData) : Except String SumUpAuthOut :=
  if jsTruthyStr d.id then
    match fetch (jsOrStr d.id "") with
    | .error e => .error e
    | .ok c =>
      if c.status = "PAID" then
        .ok { status := .authorized
              data := { d with status := some c.status,
                               transactions := some c.transactions } }
      else if c.status = "FAILED" then
        .ok { status := .error, data := { d with status := some c.status } }
      else
        .ok { status := .pending, data := { d with status := some c.status } }
  else
    .error "Checkout ID is required for authorization"

/-- `SumUpBase.capturePayment` (index.ts 294-327): requires a truthy
checkout id, fetches the checkout, errors unless its status is "PAID", and
otherwise returns the spread-updated data.  SumUp payments are captured by
the gateway when paid, so the adapter issues no capture request; the trace
records the calls actually made. -/
def sumUpCapturePayment (fetch : String → Except String SumUpCheckout)
    (d : SumUpData) : Except String SumUpData × List GatewayCall :=
  if jsTruthyStr d.id then
    match fetch (jsOrStr d.id "") with
    | .error e => (.error e, [.fetchPayment (jsOrStr d.id "")])
    | .ok c =>
      if c.status ≠ "PAID" then
        (.error ("Cannot capture payment with status: " ++ c.status),
         [.fetchPayment (jsOrStr d.id "")])
      else
        (.ok { d with status := some c.status,
                      transactions := some c.transactions },
         [.fetchPayment (jsOrStr d.id "")])
  else
    (.error "Checkout ID is required for capture", [])

/-- `SumUpBase.cancelPayment` (index.ts 373-401): when the checkout id is
truthy it attempts `deactivateCheckout` inside an inner try/catch that
swallows any failure; in every case the function returns
`{ ...input.data, status: "CANCELLED" }`.  The deactivation outcome is a
parameter; the trace records whether a deactivate call was issued. -/
def sumUpCancelPayment (d : SumUpData)
    (deactivateResult : Except String SumUpCheckout) :
    Except String SumUpData × List GatewayCall :=
  let calls := if jsTruthyStr d.id then [GatewayCall.deactivate (jsOrStr d.id "")]
               else []
  (.ok { d with status := some "CANCELLED" }, calls)

/-- The `resource` object of a SumUp webhook payload; every field may be
absent. -/
structure SumUpWebhookResource where
  id : Option String
  checkoutReference : Option String
  amount : Option Int
  status : Option String
deriving DecidableEq, Repr

/-- A SumUp webhook payload (`payload.data as SumUpWebhookPayload`):
`event_type` and `resource` may each be absent. -/
structure SumUpWebhookPayload where
  eventType : Option String
  resource : Option SumUpWebhookResource
deriving DecidableEq, Repr

/-- The `{ action, data: { session_id, amount } }` result the SumUp webhook
handler produces. -/
structure SumUpWebhookOut where
  action : PaymentAction
  sessionId : String
  amount : Int
deriving DecidableEq, Repr

/-- One branch body of the SumUp webhook switch: every branch builds
`{ action, data: { session_id: resource.checkout_reference || resource.id
|| "", amount: new BigNumber(resource.amount || 0) } }`.  Member access on
an absent `resource` raises a TypeError; JavaScript `||` falls through
falsy (absent or empty) strings, and an absent amount falls through to 0. -/
def sumUpWebhookEmit (act : PaymentAction)
    (res : Option SumUpWebhookResource) : Except String SumUpWebhookOut :=
  match res with
  | none => .error "TypeError: cannot read properties of undefined"
  | some r =>
    .ok { action := act
          sessionId := jsOrStr r.checkoutReference (jsOrStr r.id "")
          amount := r.amount.getD 0 }

/-- The action selected by the `switch (data.event_type)` of
`SumUpBase.getWebhookActionAndData`: the three "successful" event types map
to SUCCESSFUL, the three "failed" ones to FAILED, the four cancellation
ones to CANCELED, and anything else (including an absent event type) falls
to the default NOT_SUPPORTED branch. -/
def sumUpWebhookAction (et : Option String) : PaymentAction :=
  match et with
  | some e =>
    if e = "transaction_successful" ∨ e = "payment_captured" ∨
        e = "checkout_paid" then .successful
    else if e = "transaction_failed" ∨ e = "payment_failed" ∨
        e = "checkout_failed" then .failed
    else if e = "transaction_cancelled" ∨ e = "payment_cancelled" ∨
        e = "checkout_cancelled" ∨ e = "checkout_expired" then .canceled
    else .notSupported
  | none => .notSupported

/-- The `try` body of `SumUpBase.getWebhookActionAndData` (index.ts
519-566): a switch on `data.event_type` whose every branch builds
`session_id` and `amount` from `data.resource` in the same way, raising
when `resource` is absent.  No gateway call appears in the body. -/
def sumUpWebhookBody (p : SumUpWebhookPayload) :
    Except String SumUpWebhookOut :=
  sumUpWebhookEmit (sumUpWebhookAction p.eventType) p.resource

/-- `SumUpBase.getWebhookActionAndData` (index.ts 516-577): the try body
switches on the webhook body's own fields and the catch converts any
internal exception into `{ action: FAILED, data: { session_id: "",
amount: 0 } }`.  The adapter issues no gateway call while processing a
webhook, so the call trace (second component) is empty. -/
def sumUpGetWebhookActionAndData (p : SumUpWebhookPayload) :
    SumUpWebhookOut × List GatewayCall :=
  match sumUpWebhookBody p with
  | .ok r => (r, [])
  | .error _ => ({ action := .failed, sessionId := "", amount := 0 }, [])

/-- The `createParams` record `SumUpBase.initiatePayment` sends to
`client_.createCheckout` (index.ts 210-218). -/
structure SumUpCreateParams where
  amount : Int
  currency : String
  checkoutReference : String
  description : String
  merchantCode : String
  redirectUrl : String
  returnUrl : String
deriving DecidableEq, Repr

/-- The input of `SumUpBase.initiatePayment` after
`normalizePaymentCreateParams`: amount, currency code, and the host
context's `idempotency_key`. -/
structure SumUpInitiateInput where
  amount : Int
  currencyCode : String
  idempotencyKey : Option String
deriving DecidableEq, Repr

/-- The generated checkout reference
(index.ts 190): a string built from the clock and a random suffix, not from
any host-supplied identifier. -/
def sumUpCheckoutReference (nowMs : Nat) (rand : String) : String :=
  "medusa_" ++ toString nowMs ++ "_" ++ rand

/-- Construction of the create-checkout request in
`SumUpBase.initiatePayment` (index.ts 185-238), given the resolved
merchant code, the clock value and the random suffix. -/
def sumUpInitiateCreateParams (opts : SumUpOptions) (input : SumUpInitiateInput)
    (merchantCode : String) (nowMs : Nat) (rand : String) : SumUpCreateParams :=
  { amount := input.amount
    currency := input.currencyCode
    checkoutReference := sumUpCheckoutReference nowMs rand
    description := jsOrStr opts.description "Payment via Medusa"
    merchantCode := merchantCode
    redirectUrl := opts.redirectUrl
    returnUrl := opts.redirectUrl }

/-- Recognizes a capture request in a gateway call trace. -/
def isCaptureCall : GatewayCall → Bool
  | .createCapture _ => true
  | _ => false

/-- Claim C1 counterexample: on a gateway status outside the known domain,
Mollie's `getPaymentStatus` returns an undefined status (not ERROR), and
SumUp's mapper returns PENDING (not ERROR), so the fail-closed-to-ERROR
part of the claim is false in both adapters. -/
theorem C1_counterexample :
    mollieGetPaymentStatus
      (.ok { id := "p1", status := "mystery", amountValue := "10.00",
             amountCurrency := "EUR", metadataIdempotencyKey := some "k" }) =
      .ok (none : Option PaymentSessionStatus) ∧
    (none : Option PaymentSessionStatus) ≠ some PaymentSessionStatus.error ∧
    sumUpStatusMapTotal "MYSTERY" = PaymentSessionStatus.pending ∧
    PaymentSessionStatus.pending ≠ PaymentSessionStatus.error :=
  ⟨rfl, by decide, rfl, by decide⟩

/-- Claim C1 (amended): both status mappers are side-effect-free and never
raise, and every known gateway status maps into the closed
`PaymentSessionStatus` set; but outside the known domain Mollie's map
yields an undefined (`none`) status rather than ERROR, and SumUp's total
lookup falls back to PENDING rather than ERROR. -/
theorem C1_amended_status_fallbacks (s t : String)
    (hs : s ∉ mollieKnownStatuses) (ht : t ∉ sumUpKnownStatuses) :
    mollieStatusMap s = none ∧
    sumUpStatusMapTotal t = PaymentSessionStatus.pending ∧
    ∀ u ∈ mollieKnownStatuses, (mollieStatusMap u).isSome = true := by
  simp only [mollieKnownStatuses, List.mem_cons, List.not_mem_nil, or_false,
    not_or] at hs
  simp only [sumUpKnownStatuses, List.mem_cons, List.not_mem_nil, or_false,
    not_or] at ht
  obtain ⟨h1, h2, h3, h4, h5, h6, h7⟩ := hs
  obtain ⟨g1, g2, g3⟩ := ht
  refine ⟨?_, ?_, by decide⟩
  · simp [mollieStatusMap, h1, h2, h3, h4, h5, h6, h7]
  · simp [sumUpStatusMapTotal, g1, g2, g3]

/-- Witness for C1 (amended) at the unknown strings "mystery"/"MYSTERY". -/
theorem C1_amended_status_fallbacks_witness :
    mollieStatusMap "mystery" = none ∧
    sumUpStatusMapTotal "MYSTERY" = PaymentSessionStatus.pending ∧
    ∀ u ∈ mollieKnownStatuses, (mollieStatusMap u).isSome = true :=
  C1_amended_status_fallbacks "mystery" "MYSTERY" (by decide) (by decide)

/-- Claim C3: with `autoCapture` omitted, the Mollie adapter sends
`captureMode: manual`, although the option's own documentation and the
spec state that the default is `true` (automatic).  With `autoCapture`
explicitly set, `false` sends manual and `true` sends automatic as
claimed. -/
theorem C3_autoCapture_omitted_sends_manual :
    (mollieInitiateCreateParams
      { apiKey := "key", redirectUrl := "https://shop.example/return",
        medusaUrl := "https://shop.example", autoCapture := none,
        description := none, debug := none }
      { idempotencyKey := some "ik", email := none, address1 := none,
        postalCode := none, city := none, countryCode := none }
      "10.00" "eur" "https://shop.example/hooks/payment/mollie_mollie"
      ).captureMode = CaptureMethod.manual ∧
    (mollieInitiateCreateParams
      { apiKey := "key", redirectUrl := "https://shop.example/return",
        medusaUrl := "https://shop.example", autoCapture := some false,
        description := none, debug := none }
      { idempotencyKey := some "ik", email := none, address1 := none,
        postalCode := none, city := none, countryCode := none }
      "10.00" "eur" "https://shop.example/hooks/payment/mollie_mollie"
      ).captureMode = CaptureMethod.manual ∧
    (mollieInitiateCreateParams
      { apiKey := "key", redirectUrl := "https://shop.example/return",
        medusaUrl := "https://shop.example", autoCapture := some true,
        description := none, debug := none }
      { idempotencyKey := some "ik", email := none, address1 := none,
        postalCode := none, city := none, countryCode := none }
      "10.00" "eur" "https://shop.example/hooks/payment/mollie_mollie"
      ).captureMode = CaptureMethod.automatic ∧
    CaptureMethod.manual ≠ CaptureMethod.automatic :=
  ⟨rfl, rfl, rfl, by decide⟩

/-- Claim C5 counterexample: two SumUp initiations that differ only in the
host-supplied idempotency key produce the very same create-checkout
request, and the checkout reference is the generated clock/random string,
so the key is not embedded anywhere in the request. -/
theorem C5_counterexample :
    sumUpInitiateCreateParams
      { apiKey := "key", redirectUrl := "https://shop.example/return",
        medusaUrl := "https://shop.example", merchantCode := some "M1",
        autoCapture := none, description := none, debug := none }
      { amount := 1000, currencyCode := "EUR", idempotencyKey := some "abc" }
      "M1" 1700000000000 "x1y2z3" =
    sumUpInitiateCreateParams
      { apiKey := "key", redirectUrl := "https://shop.example/return",
        medusaUrl := "https://shop.example", merchantCode := some "M1",
        autoCapture := none, description := none, debug := none }
      { amount := 1000, currencyCode := "EUR", idempotencyKey := some "xyz" }
      "M1" 1700000000000 "x1y2z3" ∧
    (sumUpInitiateCreateParams
      { apiKey := "key", redirectUrl := "https://shop.example/return",
        medusaUrl := "https://shop.example", merchantCode := some "M1",
        autoCapture := none, description := none, debug := none }
      { amount := 1000, currencyCode := "EUR", idempotencyKey := some "abc" }
      "M1" 1700000000000 "x1y2z3").checkoutReference =
      "medusa_1700000000000_x1y2z3" :=
  ⟨rfl, rfl⟩

/-- Claim C5 (amended): the Mollie adapter embeds the host context's
idempotency key into the create request's `metadata.idempotency_key`, but
the SumUp adapter's create-checkout request is independent of the
idempotency key (it carries only a generated checkout reference). -/
theorem C5_amended_idempotency_key
    (opts : MollieOptions) (ctx : MollieInitContext) (amt cur url : String)
    (sopts : SumUpOptions) (i : SumUpInitiateInput) (k : Option String)
    (mc : String) (ts : Nat) (r : String) :
    (mollieInitiateCreateParams opts ctx amt cur url).metadataIdempotencyKey
      = ctx.idempotencyKey ∧
    sumUpInitiateCreateParams sopts { i with idempotencyKey := k } mc ts r
      = sumUpInitiateCreateParams sopts i mc ts r :=
  ⟨rfl, rfl⟩

/-- Claim C6 counterexample: when the gateway fetch fails, Mollie's
`getPaymentStatus` rethrows the error rather than returning the ERROR
status. -/
theorem C6_counterexample :
    mollieGetPaymentStatus (.error "connection refused") =
      .error "connection refused" ∧
    mollieGetPaymentStatus (.error "connection refused") ≠
      .ok (some PaymentSessionStatus.error) :=
  ⟨rfl, fun h => Except.noConfusion h⟩

/-- Claim C6 (amended): SumUp's `getPaymentStatus` degrades to the ERROR
status both when the checkout id is absent and when the gateway fetch
fails, but Mollie's `getPaymentStatus` rethrows a failed fetch instead of
returning ERROR. -/
theorem C6_amended_status_on_failure (e : String)
    (fetch : String → Except String SumUpCheckout)
    (d d2 : SumUpData) (hd : d.id = none) (hd2 : jsTruthyStr d2.id = true)
    (hf : ∀ cid, fetch cid = .error e) :
    mollieGetPaymentStatus (.error e) = .error e ∧
    sumUpGetPaymentStatus fetch d2 =
      { status := PaymentSessionStatus.error, data := none } ∧
    sumUpGetPaymentStatus fetch d =
      { status := PaymentSessionStatus.error, data := none } := by
  refine ⟨rfl, ?_, ?_⟩
  · simp [sumUpGetPaymentStatus, hd2, hf]
  · simp [sumUpGetPaymentStatus, hd, jsTruthyStr]

/-- Witness for C6 (amended) at a failing fetch and concrete session data. -/
theorem C6_amended_status_on_failure_witness :
    mollieGetPaymentStatus (.error "boom") = .error "boom" ∧
    sumUpGetPaymentStatus (fun _ => .error "boom")
      { id := some "c1", status := none, transactions := none,
        amount := none, currency := none, extra := [] } =
      { status := PaymentSessionStatus.error, data := none } ∧
    sumUpGetPaymentStatus (fun _ => .error "boom")
      { id := none, status := none, transactions := none,
        amount := none, currency := none, extra := [] } =
      { status := PaymentSessionStatus.error, data := none } :=
  C6_amended_status_on_failure "boom" (fun _ => .error "boom")
    { id := none, status := none, transactions := none,
      amount := none, currency := none, extra := [] }
    { id := some "c1", status := none, transactions := none,
      amount := none, currency := none, extra := [] }
    rfl (by decide) (fun _ => rfl)

/-- Claim C10: SumUp's `cancelPayment` succeeds for every input, passing
the input data fields through with the status field set to the literal
"CANCELLED", independently of the deactivation call's outcome (and hence
of whether the checkout id is absent or the gateway reports it PAID). -/
theorem C10_cancel_always_cancelled (d : SumUpData)
    (r r2 : Except String SumUpCheckout) :
    (sumUpCancelPayment d r).1 =
      .ok { d with status := some "CANCELLED" } ∧
    sumUpCancelPayment d r = sumUpCancelPayment d r2 :=
  ⟨rfl, rfl⟩

/-- The SumUp webhook reconciler issues no gateway call on any payload. -/
theorem sumUpWebhook_no_calls (q : SumUpWebhookPayload) :
    (sumUpGetWebhookActionAndData q).2 = [] := by
  unfold sumUpGetWebhookActionAndData
  split <;> rfl

/-- Claim C2 counterexample: on a SumUp webhook payload whose body carries
event type "checkout_paid" while its resource claims status "FAILED", the
reconciler issues no gateway fetch and reports `successful` straight from
the body's event type. -/
theorem C2_counterexample :
    (sumUpGetWebhookActionAndData
      { eventType := some "checkout_paid"
        resource := some { id := some "c1", checkoutReference := some "ref1",
                           amount := some 100, status := some "FAILED" } }).2
      = [] ∧
    (sumUpGetWebhookActionAndData
      { eventType := some "checkout_paid"
        resource := some { id := some "c1", checkoutReference := some "ref1",
                           amount := some 100, status := some "FAILED" } }
      ).1.action = PaymentAction.successful :=
  ⟨rfl, rfl⟩

/-- Claim C2 (amended): Mollie's webhook reconciler re-fetches the payment
by the payload's id and derives the action and all data fields from the
fetched record; SumUp's reconciler issues no gateway call at all, deriving
its result from the webhook body alone. -/
theorem C2_amended_webhook_refetch
    (fetch : String → Except String MolliePayment)
    (pl : MollieWebhookPayload) (P : MolliePayment)
    (h : fetch pl.id = .ok P) (q : SumUpWebhookPayload) :
    mollieGetWebhookActionAndData fetch pl =
      .ok (mollieActionOf P.status,
           { amountValue := P.amountValue,
             sessionId := P.metadataIdempotencyKey, payment := P }) ∧
    (sumUpGetWebhookActionAndData q).2 = [] := by
  constructor
  · unfold mollieGetWebhookActionAndData
    rw [h]
  · exact sumUpWebhook_no_calls q

/-- Witness for C2 (amended) at a concrete fetched payment and payload. -/
theorem C2_amended_webhook_refetch_witness :
    mollieGetWebhookActionAndData
      (fun _ => .ok { id := "p1", status := "paid", amountValue := "10.00",
                      amountCurrency := "EUR",
                      metadataIdempotencyKey := some "sess1" })
      { id := "p1", bodyStatus := some "open", bodyAmount := some "0.01" } =
      .ok (mollieActionOf "paid",
           { amountValue := "10.00", sessionId := some "sess1",
             payment := { id := "p1", status := "paid",
                          amountValue := "10.00", amountCurrency := "EUR",
                          metadataIdempotencyKey := some "sess1" } }) ∧
    (sumUpGetWebhookActionAndData
      { eventType := none, resource := none }).2 = [] :=
  C2_amended_webhook_refetch
    (fun _ => .ok { id := "p1", status := "paid", amountValue := "10.00",
                    amountCurrency := "EUR",
                    metadataIdempotencyKey := some "sess1" })
    { id := "p1", bodyStatus := some "open", bodyAmount := some "0.01" }
    { id := "p1", status := "paid", amountValue := "10.00",
      amountCurrency := "EUR", metadataIdempotencyKey := some "sess1" }
    rfl
    { eventType := none, resource := none }

/-- The `["captured", "authorized", "paid"].includes(status)` check of
Mollie's `authorizePayment` accepts exactly the AUTHORIZED and CAPTURED
mapped statuses: no `PaymentSessionStatus` value renders as "paid". -/
theorem mollieAuthCheck_iff (s : Option PaymentSessionStatus) :
    (["captured", "authorized", "paid"]).contains (psStatusStr s) = true ↔
    (s = some PaymentSessionStatus.authorized ∨
     s = some PaymentSessionStatus.captured) := by
  cases s with
  | none => decide
  | some v => cases v <;> decide

/-- Claim C4 counterexample: a SumUp checkout in status "PENDING" maps to
the host status PENDING — outside {AUTHORIZED, CAPTURED} — yet
`authorizePayment` returns successfully instead of failing with an
invalid-state error. -/
theorem C4_counterexample :
    sumUpAuthorizePayment
      (fun _ => .ok { id := "c1", checkoutReference := "ref1", amount := 100,
                      currency := "EUR", status := "PENDING",
                      transactions := [] })
      { id := some "c1", status := none, transactions := none,
        amount := none, currency := none, extra := [] } =
      .ok { status := PaymentSessionStatus.pending,
            data := { id := some "c1", status := some "PENDING",
                      transactions := none, amount := none,
                      currency := none, extra := [] } } ∧
    sumUpStatusMapTotal "PENDING" = PaymentSessionStatus.pending ∧
    PaymentSessionStatus.pending ≠ PaymentSessionStatus.authorized ∧
    PaymentSessionStatus.pending ≠ PaymentSessionStatus.captured :=
  ⟨rfl, rfl, by decide, by decide⟩

/-- Claim C4 (amended): Mollie's `authorizePayment` succeeds exactly when
the mapped status is AUTHORIZED or CAPTURED and otherwise fails with an
error naming the current status; SumUp's `authorizePayment`, however,
returns successfully with status PENDING for any fetched checkout that is
neither "PAID" nor "FAILED" instead of raising an invalid-state error. -/
theorem C4_amended_authorize
    (P : MolliePayment) (did : Option String) (hid : jsTruthyStr did = true)
    (fetch : String → Except String SumUpCheckout) (c : SumUpCheckout)
    (d : SumUpData) (hd : jsTruthyStr d.id = true)
    (hfc : fetch (jsOrStr d.id "") = .ok c)
    (hns : c.status ≠ "PAID") (hnf : c.status ≠ "FAILED") :
    ((∃ out, mollieAuthorizePayment (.ok P) did = .ok out) ↔
      (mollieStatusMap P.status = some PaymentSessionStatus.authorized ∨
       mollieStatusMap P.status = some PaymentSessionStatus.captured)) ∧
    (¬(mollieStatusMap P.status = some PaymentSessionStatus.authorized ∨
       mollieStatusMap P.status = some PaymentSessionStatus.captured) →
      mollieAuthorizePayment (.ok P) did =
        .error ("Payment is not authorized: current status is " ++
                psStatusStr (mollieStatusMap P.status))) ∧
    sumUpAuthorizePayment fetch d =
      .ok { status := PaymentSessionStatus.pending,
            data := { d with status := some c.status } } := by
  refine ⟨?_, ?_, ?_⟩
  · constructor
    · rintro ⟨out, hout⟩
      rw [← mollieAuthCheck_iff]
      by_contra hcontra
      unfold mollieAuthorizePayment mollieGetPaymentStatus at hout
      rw [if_pos hid] at hout
      rw [Bool.not_eq_true] at hcontra
      dsimp only at hout
      rw [if_neg (by simp only [hcontra]; decide)] at hout
      exact Except.noConfusion hout
    · intro hmem
      rw [← mollieAuthCheck_iff] at hmem
      refine ⟨{ dataId := did, status := mollieStatusMap P.status }, ?_⟩
      unfold mollieAuthorizePayment mollieGetPaymentStatus
      rw [if_pos hid]
      dsimp only
      rw [if_pos hmem]
  · intro hnmem
    rw [← mollieAuthCheck_iff, Bool.not_eq_true] at hnmem
    unfold mollieAuthorizePayment mollieGetPaymentStatus
    rw [if_pos hid]
    dsimp only
    rw [if_neg (by simp only [hnmem]; decide)]
  · unfold sumUpAuthorizePayment
    rw [if_pos hd, hfc]
    dsimp only
    rw [if_neg hns, if_neg hnf]

/-- Witness for C4 (amended): a Mollie payment in gateway status "open"
(mapped to REQUIRES_MORE) is rejected with the status named, and a SumUp
checkout in "EXPIRED" is authorized as PENDING. -/
theorem C4_amended_authorize_witness :
    mollieAuthorizePayment
      (.ok { id := "p1", status := "open", amountValue := "10.00",
             amountCurrency := "EUR", metadataIdempotencyKey := some "k" })
      (some "p1") =
      .error ("Payment is not authorized: current status is " ++
              psStatusStr (mollieStatusMap "open")) ∧
    sumUpAuthorizePayment
      (fun _ => .ok { id := "c1", checkoutReference := "ref1", amount := 100,
                      currency := "EUR", status := "EXPIRED",
                      transactions := [] })
      { id := some "c1", status := none, transactions := none,
        amount := none, currency := none, extra := [] } =
      .ok { status := PaymentSessionStatus.pending,
            data := { id := some "c1", status := some "EXPIRED",
                      transactions := none, amount := none,
                      currency := none, extra := [] } } := by
  have h := C4_amended_authorize
    { id := "p1", status := "open", amountValue := "10.00",
      amountCurrency := "EUR", metadataIdempotencyKey := some "k" }
    (some "p1") (by decide)
    (fun _ => .ok { id := "c1", checkoutReference := "ref1", amount := 100,
                    currency := "EUR", status := "EXPIRED",
                    transactions := [] })
    { id := "c1", checkoutReference := "ref1", amount := 100,
      currency := "EUR", status := "EXPIRED", transactions := [] }
    { id := some "c1", status := none, transactions := none,
      amount := none, currency := none, extra := [] }
    (by decide) rfl (by decide) (by decide)
  exact ⟨h.2.1 (by decide), h.2.2⟩

/-- Claim C7 counterexample: for a Mollie payment the gateway reports as
"failed" — a terminal state the claim covers — `cancelPayment` does issue
a cancel call (one, not zero); and for an "expired" payment the returned
data carries only the id, not the prior snapshot. -/
theorem C7_counterexample :
    (mollieCancelPayment (some "p1")
      (.ok { id := "p1", status := "failed", amountValue := "10.00",
             amountCurrency := "EUR", metadataIdempotencyKey := some "k" })
      (.ok { id := "p1", status := "canceled", amountValue := "10.00",
             amountCurrency := "EUR", metadataIdempotencyKey := some "k" })
      ).2 = 1 ∧
    (1 : Nat) ≠ 0 ∧
    (mollieCancelPayment (some "p2")
      (.ok { id := "p2", status := "expired", amountValue := "20.00",
             amountCurrency := "EUR", metadataIdempotencyKey := some "k2" })
      (.ok { id := "p2", status := "canceled", amountValue := "20.00",
             amountCurrency := "EUR", metadataIdempotencyKey := some "k2" })
      ).1 = .ok (.idOnly (some "p2")) :=
  ⟨rfl, by decide, rfl⟩

/-- Claim C7 (amended): only the "expired" status short-circuits
`cancelPayment` — returning success carrying just the payment id with no
cancel call issued; for any other reported status (including the terminal
"failed") one cancel call is issued, and if that call fails the error is
swallowed and the prior snapshot is returned wrapped in an extra data
field. -/
theorem C7_amended_cancel (inputId : Option String) (p q : MolliePayment)
    (cr : Except String MolliePayment) (e : String)
    (hp : p.status = "expired") (hq : q.status ≠ "expired") :
    mollieCancelPayment inputId (.ok p) cr = (.ok (.idOnly inputId), 0) ∧
    (mollieCancelPayment inputId (.ok q) cr).2 = 1 ∧
    mollieCancelPayment inputId (.ok q) (.error e) =
      (.ok (.wrappedPrior q), 1) := by
  refine ⟨?_, ?_, ?_⟩
  · unfold mollieCancelPayment
    dsimp only
    rw [if_pos hp]
  · unfold mollieCancelPayment
    dsimp only
    rw [if_neg hq]
    cases cr <;> rfl
  · unfold mollieCancelPayment
    dsimp only
    rw [if_neg hq]

/-- Witness for C7 (amended) at concrete expired and failed payments. -/
theorem C7_amended_cancel_witness :
    mollieCancelPayment (some "p9")
      (.ok { id := "p9", status := "expired", amountValue := "5.00",
             amountCurrency := "EUR", metadataIdempotencyKey := none })
      (.ok { id := "p9", status := "canceled", amountValue := "5.00",
             amountCurrency := "EUR", metadataIdempotencyKey := none }) =
      (.ok (.idOnly (some "p9")), 0) ∧
    (mollieCancelPayment (some "p9")
      (.ok { id := "p9", status := "failed", amountValue := "5.00",
             amountCurrency := "EUR", metadataIdempotencyKey := none })
      (.ok { id := "p9", status := "canceled", amountValue := "5.00",
             amountCurrency := "EUR", metadataIdempotencyKey := none })).2
      = 1 ∧
    mollieCancelPayment (some "p9")
      (.ok { id := "p9", status := "failed", amountValue := "5.00",
             amountCurrency := "EUR", metadataIdempotencyKey := none })
      (.error "already captured") =
      (.ok (.wrappedPrior
        { id := "p9", status := "failed", amountValue := "5.00",
          amountCurrency := "EUR", metadataIdempotencyKey := none }), 1) := by
  have h2 := C7_amended_cancel (some "p9")
    { id := "p9", status := "expired", amountValue := "5.00",
      amountCurrency := "EUR", metadataIdempotencyKey := none }
    { id := "p9", status := "failed", amountValue := "5.00",
      amountCurrency := "EUR", metadataIdempotencyKey := none }
    (.ok { id := "p9", status := "canceled", amountValue := "5.00",
           amountCurrency := "EUR", metadataIdempotencyKey := none })
    "already captured" rfl (by decide)
  exact h2


/-- Inversion of the capture tail: a successful outcome returns exactly the
current gateway record, leaves it as the final state, passes the capture
count through, and certifies that its mapped status reads "captured". -/
theorem mollieCaptureFinish_ok (p2 : MolliePayment) (n : Nat)
    (dd qq : MolliePayment) (m : Nat)
    (h : mollieCaptureFinish p2 n = (.ok dd, qq, m)) :
    dd = p2 ∧ qq = p2 ∧ m = n ∧
    psStatusStr (mollieStatusMap p2.status) = "captured" := by
  unfold mollieCaptureFinish at h
  split at h
  · exact Except.noConfusion (congrArg Prod.fst h)
  · rename_i hcap
    rw [not_not] at hcap
    have hd : Except.ok p2 = Except.ok dd := congrArg Prod.fst h
    have hq : p2 = qq := congrArg (fun x => x.2.1) h
    have hm : n = m := congrArg (fun x => x.2.2) h
    exact ⟨(Except.ok.inj hd).symm, hq.symm, hm.symm, hcap⟩

/-- A successful `mollieCapturePayment` run has a truthy input id, returns
the final gateway record as its data, issues at most one capture request,
and leaves the gateway record with mapped status "captured". -/
theorem mollieCapture_ok_shape (a : Option Bool)
    (ce : MolliePayment → MolliePayment) (inputId : Option String)
    (p d1 p1 : MolliePayment) (n1 : Nat)
    (h : mollieCapturePayment a ce inputId p = (.ok d1, p1, n1)) :
    jsTruthyStr inputId = true ∧ d1 = p1 ∧ n1 ≤ 1 ∧
    psStatusStr (mollieStatusMap p1.status) = "captured" := by
  unfold mollieCapturePayment at h
  split at h
  · rename_i hid
    split at h
    · obtain ⟨hd, hq, hm, hs⟩ := mollieCaptureFinish_ok _ _ _ _ _ h
      subst hq
      exact ⟨hid, hd, by omega, hs⟩
    · obtain ⟨hd, hq, hm, hs⟩ := mollieCaptureFinish_ok _ _ _ _ _ h
      subst hq
      exact ⟨hid, hd, by omega, hs⟩
  · exact Except.noConfusion (congrArg Prod.fst h)

/-- The SumUp capture path issues no capture request on any input: its only
gateway call is the checkout fetch. -/
theorem sumUpCapture_no_capture_calls
    (f : String → Except String SumUpCheckout) (d : SumUpData) :
    List.countP isCaptureCall (sumUpCapturePayment f d).2 = 0 := by
  unfold sumUpCapturePayment
  split
  · cases hf : f (jsOrStr d.id "") with
    | error e => simp [isCaptureCall]
    | ok c =>
      dsimp only
      split <;> simp [isCaptureCall]
  · rfl

/-- Claim C8: a second `capturePayment` call on a payment already CAPTURED
after a first successful call returns the same data and the same gateway
state while issuing no further capture request, so at most one capture
request is issued across the two calls; and the SumUp adapter never issues
a capture request at all. -/
theorem C8_capture_idempotent (a : Option Bool)
    (ce : MolliePayment → MolliePayment) (inputId : Option String)
    (p d1 p1 : MolliePayment) (n1 : Nat)
    (f : String → Except String SumUpCheckout) (d : SumUpData)
    (h : mollieCapturePayment a ce inputId p = (.ok d1, p1, n1)) :
    mollieCapturePayment a ce inputId p1 = (.ok d1, p1, 0) ∧
    n1 + 0 ≤ 1 ∧
    List.countP isCaptureCall (sumUpCapturePayment f d).2 = 0 := by
  obtain ⟨hid, hd, hn, hs⟩ := mollieCapture_ok_shape a ce inputId p d1 p1 n1 h
  refine ⟨?_, by omega, sumUpCapture_no_capture_calls f d⟩
  unfold mollieCapturePayment
  rw [if_pos hid]
  rw [if_neg (by rw [hs]; rintro ⟨hcontra, -⟩; exact absurd hcontra (by decide))]
  unfold mollieCaptureFinish
  rw [if_neg (by rw [hs]; exact not_not_intro rfl)]
  rw [hd]

/-- Witness for C8 at a concrete already-paid Mollie payment (auto-capture
configuration), where the first call issues zero capture requests. -/
theorem C8_capture_idempotent_witness :
    mollieCapturePayment (some true) (fun x => x) (some "p1")
      { id := "p1", status := "paid", amountValue := "10.00",
        amountCurrency := "EUR", metadataIdempotencyKey := some "k" } =
      (.ok { id := "p1", status := "paid", amountValue := "10.00",
             amountCurrency := "EUR", metadataIdempotencyKey := some "k" },
       { id := "p1", status := "paid", amountValue := "10.00",
         amountCurrency := "EUR", metadataIdempotencyKey := some "k" }, 0) ∧
    (0 : Nat) + 0 ≤ 1 ∧
    List.countP isCaptureCall
      (sumUpCapturePayment (fun _ => .error "down")
        { id := some "c1", status := none, transactions := none,
          amount := none, currency := none, extra := [] }).2 = 0 :=
  C8_capture_idempotent (some true) (fun x => x) (some "p1")
    { id := "p1", status := "paid", amountValue := "10.00",
      amountCurrency := "EUR", metadataIdempotencyKey := some "k" }
    { id := "p1", status := "paid", amountValue := "10.00",
      amountCurrency := "EUR", metadataIdempotencyKey := some "k" }
    { id := "p1", status := "paid", amountValue := "10.00",
      amountCurrency := "EUR", metadataIdempotencyKey := some "k" }
    0 (fun _ => .error "down")
    { id := some "c1", status := none, transactions := none,
      amount := none, currency := none, extra := [] }
    rfl

/-- Whatever the event type selects, the four emitted actions are
SUCCESSFUL, FAILED, CANCELED or NOT_SUPPORTED. -/
theorem sumUpWebhookAction_cases (et : Option String) :
    sumUpWebhookAction et = PaymentAction.successful ∨
    sumUpWebhookAction et = PaymentAction.failed ∨
    sumUpWebhookAction et = PaymentAction.canceled ∨
    sumUpWebhookAction et = PaymentAction.notSupported := by
  cases et with
  | none => simp [sumUpWebhookAction]
  | some e =>
    unfold sumUpWebhookAction
    dsimp only
    split_ifs <;> simp

/-- With the resource absent, every switch branch of the SumUp webhook body
raises the same TypeError. -/
theorem sumUpWebhookBody_noResource (et : Option String) :
    sumUpWebhookBody { eventType := et, resource := none } =
      .error "TypeError: cannot read properties of undefined" := rfl

/-- A successful SumUp webhook body carries one of the four actions the
switch can emit. -/
theorem sumUpWebhookBody_ok_action (p : SumUpWebhookPayload)
    (r : SumUpWebhookOut) (h : sumUpWebhookBody p = .ok r) :
    r.action = PaymentAction.successful ∨ r.action = PaymentAction.failed ∨
    r.action = PaymentAction.canceled ∨
    r.action = PaymentAction.notSupported := by
  obtain ⟨et, res⟩ := p
  cases res with
  | none =>
    rw [sumUpWebhookBody_noResource] at h
    exact Except.noConfusion h
  | some r0 =>
    unfold sumUpWebhookBody sumUpWebhookEmit at h
    dsimp only at h
    have hr : r.action = sumUpWebhookAction et := by
      rw [← Except.ok.inj h]
    rw [hr]
    exact sumUpWebhookAction_cases et

/-- Claim C9: the SumUp webhook handler is total — it returns a result with
one of the four emitted actions for every payload, and whenever the try
body raises internally (in particular whenever the resource is absent) it
returns action `failed` with session id "" and amount 0. -/
theorem C9_webhook_total (p : SumUpWebhookPayload) :
    ((sumUpGetWebhookActionAndData p).1.action = PaymentAction.successful ∨
     (sumUpGetWebhookActionAndData p).1.action = PaymentAction.failed ∨
     (sumUpGetWebhookActionAndData p).1.action = PaymentAction.canceled ∨
     (sumUpGetWebhookActionAndData p).1.action = PaymentAction.notSupported) ∧
    (p.resource = none →
      (sumUpGetWebhookActionAndData p).1 =
        { action := PaymentAction.failed, sessionId := "", amount := 0 }) ∧
    (∀ e, sumUpWebhookBody p = .error e →
      (sumUpGetWebhookActionAndData p).1 =
        { action := PaymentAction.failed, sessionId := "", amount := 0 }) := by
  refine ⟨?_, ?_, ?_⟩
  · unfold sumUpGetWebhookActionAndData
    cases hb : sumUpWebhookBody p with
    | error e => simp
    | ok r => simpa using sumUpWebhookBody_ok_action p r hb
  · intro hres
    obtain ⟨et, res⟩ := p
    cases hres
    unfold sumUpGetWebhookActionAndData
    rw [sumUpWebhookBody_noResource]
  · intro e he
    unfold sumUpGetWebhookActionAndData
    rw [he]

/-- Witness for C9 at a payload with a recognized event type but no
resource: the handler returns the degraded failed result. -/
theorem C9_webhook_total_witness :
    (sumUpGetWebhookActionAndData
      { eventType := some "transaction_successful", resource := none }).1 =
      { action := PaymentAction.failed, sessionId := "", amount := 0 } :=
  (C9_webhook_total
    { eventType := some "transaction_successful", resource := none }).2.1 rfl

/-- Witness for C5 (amended) at concrete Mollie and SumUp initiations. -/
theorem C5_amended_idempotency_key_witness :
    (mollieInitiateCreateParams
      { apiKey := "key", redirectUrl := "https://shop.example/return",
        medusaUrl := "https://shop.example", autoCapture := some true,
        description := none, debug := none }
      { idempotencyKey := some "ik", email := none, address1 := none,
        postalCode := none, city := none, countryCode := none }
      "10.00" "eur" "https://shop.example/hooks/payment/mollie_mollie"
      ).metadataIdempotencyKey = some "ik" ∧
    sumUpInitiateCreateParams
      { apiKey := "key", redirectUrl := "https://shop.example/return",
        medusaUrl := "https://shop.example", merchantCode := some "M1",
        autoCapture := none, description := none, debug := none }
      { ({ amount := 1000, currencyCode := "EUR",
           idempotencyKey := some "other" } : SumUpInitiateInput) with
        idempotencyKey := some "ik" }
      "M1" 1700000000000 "x1y2z3" =
    sumUpInitiateCreateParams
      { apiKey := "key", redirectUrl := "https://shop.example/return",
        medusaUrl := "https://shop.example", merchantCode := some "M1",
        autoCapture := none, description := none, debug := none }
      { amount := 1000, currencyCode := "EUR", idempotencyKey := some "other" }
      "M1" 1700000000000 "x1y2z3" :=
  C5_amended_idempotency_key
    { apiKey := "key", redirectUrl := "https://shop.example/return",
      medusaUrl := "https://shop.example", autoCapture := some true,
      description := none, debug := none }
    { idempotencyKey := some "ik", email := none, address1 := none,
      postalCode := none, city := none, countryCode := none }
    "10.00" "eur" "https://shop.example/hooks/payment/mollie_mollie"
    { apiKey := "key", redirectUrl := "https://shop.example/return",
      medusaUrl := "https://shop.example", merchantCode := some "M1",
      autoCapture := none, description := none, debug := none }
    { amount := 1000, currencyCode := "EUR", idempotencyKey := some "other" }
    (some "ik") "M1" 1700000000000 "x1y2z3"

/-- Witness for C10 at a concrete session and a failing deactivation. -/
theorem C10_cancel_always_cancelled_witness :
    (sumUpCancelPayment
      { id := some "c1", status := some "PAID", transactions := some ["t1"],
        amount := some 1000, currency := some "EUR",
        extra := [("customer", "cus_1")] }
      (.error "deactivate failed")).1 =
      .ok { ({ id := some "c1", status := some "PAID",
               transactions := some ["t1"], amount := some 1000,
               currency := some "EUR",
               extra := [("customer", "cus_1")] } : SumUpData) with
            status := some "CANCELLED" } ∧
    sumUpCancelPayment
      { id := some "c1", status := some "PAID", transactions := some ["t1"],
        amount := some 1000, currency := some "EUR",
        extra := [("customer", "cus_1")] }
      (.error "deactivate failed") =
    sumUpCancelPayment
      { id := some "c1", status := some "PAID", transactions := some ["t1"],
        amount := some 1000, currency := some "EUR",
        extra := [("customer", "cus_1")] }
      (.ok { id := "c1", checkoutReference := "ref1", amount := 1000,
             currency := "EUR", status := "PAID", transactions := ["t1"] }) :=
  C10_cancel_always_cancelled
    { id := some "c1", status := some "PAID", transactions := some ["t1"],
      amount := some 1000, currency := some "EUR",
      extra := [("customer", "cus_1")] }
    (.error "deactivate failed")
    (.ok { id := "c1", checkoutReference := "ref1", amount := 1000,
           currency := "EUR", status := "PAID", transactions := ["t1"] })
